import Mathlib

/-!
Shallow embedding of the product-qualification and price-normalization
pipeline of the shopify-automation repository, together with proofs of the
specified properties.

Conventions:
* Python floats are modelled as exact rationals (ℚ).
* Python's built-in `round` (round-half-to-even, a.k.a. banker's rounding)
  is modelled by `roundHalfEven`; `round(x, 2)` by `round2`.
* Python dictionaries with `.get(key, default)` access are modelled as
  structures with `Option` fields read through `Option.getD`.
-/

/-- Python's `str.lower()` (character-wise lowercasing; identical to
`String.toLower`, but defined by structural recursion so that concrete
instances reduce). -/
def lowerStr (s : String) : String := String.mk (s.data.map Char.toLower)

/-- Python's `round` on a rational: nearest integer, ties to even. -/
def roundHalfEven (q : ℚ) : ℤ :=
  if q - ⌊q⌋ < 1/2 then ⌊q⌋
  else if 1/2 < q - ⌊q⌋ then ⌊q⌋ + 1
  else if ⌊q⌋ % 2 = 0 then ⌊q⌋ else ⌊q⌋ + 1

/-- Python's `round(x, 2)`: round to two decimal places, ties to even. -/
def round2 (q : ℚ) : ℚ := (roundHalfEven (q * 100) : ℚ) / 100

namespace AdvancedPriceCalculator

/-! Embedding of `src/src/pricing/advanced_calculator.py`. -/

/-- Per-niche overrides (`nichos` sub-dictionaries of the config). -/
structure NichoConfig where
  markup : Option ℚ
  frete_padrao : Option ℚ
deriving DecidableEq

/-- The `global` sub-dictionary of the config.  In `DEFAULT_CONFIG` every
key is present, so the `.get(key, default)` fallbacks of the source never
fire and plain fields are a faithful model. -/
structure GlobalConfig where
  markup : ℚ
  imposto_importacao : ℚ
  icms : ℚ
  frete_padrao : ℚ
deriving DecidableEq

structure Config where
  globalCfg : GlobalConfig
  nichos : List (String × NichoConfig)
deriving DecidableEq

/-- `AdvancedPriceCalculator.DEFAULT_CONFIG`. -/
def DEFAULT_CONFIG : Config :=
  { globalCfg :=
      { markup := 2.5
        imposto_importacao := 0.15
        icms := 0.18
        frete_padrao := 30.0 }
    nichos :=
      [ ("bolsas",    { markup := some 2.5, frete_padrao := some 35.0 }),
        ("brincos",   { markup := some 2.5, frete_padrao := some 15.0 }),
        ("colares",   { markup := some 2.5, frete_padrao := some 18.0 }),
        ("pulseiras", { markup := some 2.5, frete_padrao := some 15.0 }),
        ("aneis",     { markup := some 2.5, frete_padrao := some 12.0 }),
        ("relogios",  { markup := some 2.5, frete_padrao := some 25.0 }),
        ("oculos",    { markup := some 2.5, frete_padrao := some 20.0 }),
        ("acessorios",{ markup := some 2.5, frete_padrao := some 20.0 }) ] }

/-- One entry of the `parcelamento` dictionary (the presentation-only
`texto` field is omitted). -/
structure Parcela where
  valor : ℚ
  total : ℚ
  juros : ℚ
deriving DecidableEq

/-- The dictionary returned by `calcular_preco_final`. -/
structure Breakdown where
  subtotal : ℚ
  frete : ℚ
  imposto_importacao : ℚ
  icms : ℚ
  custo_total : ℚ
  markup_aplicado : ℚ
  preco_calculado : ℚ
  preco_sugerido : ℚ
  preco_de : ℚ
  margem_lucro_percentual : ℚ
  parcelamento : List (Nat × Parcela)
deriving DecidableEq

/-- `_arredondar_psicologico`: tiered rounding to a price ending in 9.90. -/
def arredondar_psicologico (valor : ℚ) : ℚ :=
  if valor < 50 then
    max 29.90 ((roundHalfEven (valor / 10) : ℚ) * 10 - 0.10)
  else if valor < 200 then
    (roundHalfEven (valor / 10) : ℚ) * 10 - 0.10
  else if valor < 500 then
    (roundHalfEven (valor / 20) : ℚ) * 20 - 0.10
  else
    (roundHalfEven (valor / 50) : ℚ) * 50 - 0.10

/-- `_calcular_preco_de`: compare-at price, 30% above the sale price. -/
def calcular_preco_de (preco : ℚ) : ℚ :=
  (roundHalfEven (preco * 1.30 / 10) : ℚ) * 10 - 0.10

/-- `_calcular_parcelamento`: installments 1..12, interest-free up to 6,
Price-table amortization at 1.99%/month from 7 on. -/
def calcular_parcelamento (preco : ℚ) : List (Nat × Parcela) :=
  (List.range' 1 12).map (fun i =>
    if i ≤ 6 then
      (i, { valor := round2 (preco / i), total := preco, juros := 0 })
    else
      let taxa_juros : ℚ := 0.0199
      let fator := (taxa_juros * (1 + taxa_juros) ^ i) / ((1 + taxa_juros) ^ i - 1)
      let valor_parcela := preco * fator
      let total := valor_parcela * i
      (i, { valor := round2 valor_parcela
            total := round2 total
            juros := round2 (total - preco) }))

/-- `self.config.get('nichos', {}).get(nicho.lower(), {})`. -/
def nichoConfigOf (config : Config) (nicho : String) : Option NichoConfig :=
  (config.nichos.find? (fun p => p.1 == lowerStr nicho)).map Prod.snd

/-- `nicho_config.get('markup', global_config.get('markup', 2.5))`. -/
def markupOf (config : Config) (nicho : String) : ℚ :=
  ((nichoConfigOf config nicho).bind NichoConfig.markup).getD config.globalCfg.markup

/-- `nicho_config.get('frete_padrao', global_config.get('frete_padrao', 30.0))`. -/
def fretePadraoOf (config : Config) (nicho : String) : ℚ :=
  ((nichoConfigOf config nicho).bind NichoConfig.frete_padrao).getD config.globalCfg.frete_padrao

/-- `calcular_preco_final`: the full price computation.  `frete = none`
models the Python default argument `frete=None`. -/
def calcular_preco_final (config : Config) (preco_produto : ℚ)
    (frete : Option ℚ) (nicho : String) : Breakdown :=
  let global_config := config.globalCfg
  let markup := markupOf config nicho
  let ii_rate := global_config.imposto_importacao
  let icms_rate := global_config.icms
  let frete_int := frete.getD (fretePadraoOf config nicho)
  let subtotal := preco_produto
  let base_ii := subtotal + frete_int
  let ii := base_ii * ii_rate
  let base_icms := subtotal + frete_int + ii
  let icms := base_icms * icms_rate / (1 - icms_rate)
  let custo_total := subtotal + frete_int + ii + icms
  let preco_venda := custo_total * markup
  let preco_final := arredondar_psicologico preco_venda
  let margem_lucro :=
    if 0 < preco_final then ((preco_final - custo_total) / preco_final) * 100 else 0
  { subtotal := round2 subtotal
    frete := round2 frete_int
    imposto_importacao := round2 ii
    icms := round2 icms
    custo_total := round2 custo_total
    markup_aplicado := markup
    preco_calculado := round2 preco_venda
    preco_sugerido := preco_final
    preco_de := calcular_preco_de preco_final
    margem_lucro_percentual := round2 margem_lucro
    parcelamento := calcular_parcelamento preco_final }

end AdvancedPriceCalculator

namespace Criteria

/-! Embedding of `src/src/mining/criteria.py`. -/

/-- A raw candidate record (`produto: dict`).  A `none` field models an
absent dictionary key; `validar_produto` reads every field through
`dict.get(key, default)`. -/
structure Produto where
  orders : Option ℚ
  rating : Option ℚ
  reviews : Option ℚ
  price : Option ℚ
  shipping_days : Option ℚ
  title : Option String
deriving DecidableEq

/-- `CriteriosMineracao` (the fields `validar_produto` reads, plus the
forbidden-keyword list; supplier/margin/category fields are unused by
`validar_produto` and omitted). -/
structure CriteriosMineracao where
  min_pedidos : ℚ
  min_rating : ℚ
  min_reviews : ℚ
  preco_min : ℚ
  preco_max : ℚ
  max_dias_envio : ℚ
  keywords_evitar : List String

/-- The default `CriteriosMineracao()`. -/
def defaultCriterios : CriteriosMineracao :=
  { min_pedidos := 500
    min_rating := 4.5
    min_reviews := 100
    preco_min := 5.0
    preco_max := 30.0
    max_dias_envio := 30
    keywords_evitar :=
      [ "replica", "fake", "copy", "brand", "nike", "adidas", "gucci",
        "louis vuitton", "rolex", "battery", "liquid", "aerosol" ] }

/-- One entry of the `motivos_reprovacao` list.  Each constructor stands
for the corresponding f-string message of the source, carrying the same
interpolated data. -/
inductive Motivo where
  | pedidosInsuficientes (pedidos minimo : ℚ)
  | ratingBaixo (rating minimo : ℚ)
  | poucosReviews (reviews minimo : ℚ)
  | precoBaixo (preco : ℚ)
  | precoAlto (preco : ℚ)
  | envioLento (dias : ℚ)
  | keywordProibida (keyword : String)
deriving DecidableEq

/-- Is `p` an initial segment of `l`? -/
def listIsPrefixOf : List Char → List Char → Bool
  | [], _ => true
  | _ :: _, [] => false
  | a :: as, b :: bs => a == b && listIsPrefixOf as bs

/-- Is `needle` a contiguous segment of `l`? -/
def listIsInfixOf (needle : List Char) : List Char → Bool
  | [] => needle.isEmpty
  | b :: bs => listIsPrefixOf needle (b :: bs) || listIsInfixOf needle bs

/-- Python's `keyword in titulo` (contiguous substring test). -/
def containsSub (titulo keyword : String) : Bool :=
  listIsInfixOf keyword.data titulo.data

/-- The keyword loop of `validar_produto`: append one reason for the
first forbidden keyword occurring in the (lowercased) title, then
`break`. -/
def keywordMotivo (titulo : String) (keywords : List String) : List Motivo :=
  match keywords.find? (fun kw => containsSub titulo kw) with
  | some kw => [Motivo.keywordProibida kw]
  | none => []

/-- The numeric-criteria reasons, in source order. -/
def motivosBase (produto : Produto) (criterios : CriteriosMineracao) : List Motivo :=
  (if produto.orders.getD 0 < criterios.min_pedidos then
    [Motivo.pedidosInsuficientes (produto.orders.getD 0) criterios.min_pedidos] else []) ++
  (if produto.rating.getD 0 < criterios.min_rating then
    [Motivo.ratingBaixo (produto.rating.getD 0) criterios.min_rating] else []) ++
  (if produto.reviews.getD 0 < criterios.min_reviews then
    [Motivo.poucosReviews (produto.reviews.getD 0) criterios.min_reviews] else []) ++
  (if produto.price.getD 0 < criterios.preco_min then
    [Motivo.precoBaixo (produto.price.getD 0)] else []) ++
  (if criterios.preco_max < produto.price.getD 0 then
    [Motivo.precoAlto (produto.price.getD 0)] else []) ++
  (if criterios.max_dias_envio < produto.shipping_days.getD 99 then
    [Motivo.envioLento (produto.shipping_days.getD 99)] else [])

/-- `validar_produto`: accumulates all applicable rejection reasons in
source order; the keyword loop `break`s after the first match. -/
def validar_produto (produto : Produto) (criterios : CriteriosMineracao) :
    Bool × List Motivo :=
  let pedidos := produto.orders.getD 0
  let rating := produto.rating.getD 0
  let reviews := produto.reviews.getD 0
  let preco := produto.price.getD 0
  let dias_envio := produto.shipping_days.getD 99
  let titulo := lowerStr (produto.title.getD "")
  let motivos :=
    (if pedidos < criterios.min_pedidos then
      [Motivo.pedidosInsuficientes pedidos criterios.min_pedidos] else []) ++
    (if rating < criterios.min_rating then
      [Motivo.ratingBaixo rating criterios.min_rating] else []) ++
    (if reviews < criterios.min_reviews then
      [Motivo.poucosReviews reviews criterios.min_reviews] else []) ++
    (if preco < criterios.preco_min then [Motivo.precoBaixo preco] else []) ++
    (if criterios.preco_max < preco then [Motivo.precoAlto preco] else []) ++
    (if criterios.max_dias_envio < dias_envio then [Motivo.envioLento dias_envio] else []) ++
    keywordMotivo titulo criterios.keywords_evitar
  (motivos.isEmpty, motivos)

/-- The reasons list as the claim describes it: one reason per violated
criterion, including one reason for EVERY forbidden keyword occurring
(case-insensitively, as a substring) in the title. -/
def motivosClaim (produto : Produto) (criterios : CriteriosMineracao) : List Motivo :=
  motivosBase produto criterios ++
  ((criterios.keywords_evitar.filter
      (fun kw => containsSub (lowerStr (produto.title.getD "")) kw)).map
    Motivo.keywordProibida)

/-- The reasons list `validar_produto` actually produces, described
declaratively: all violated numeric criteria, then at most one keyword
reason — the first (in configured order) forbidden keyword occurring in
the title. -/
def motivosPrimeiraKeyword (produto : Produto) (criterios : CriteriosMineracao) : List Motivo :=
  motivosBase produto criterios ++
  (((criterios.keywords_evitar.filter
      (fun kw => containsSub (lowerStr (produto.title.getD "")) kw)).map
    Motivo.keywordProibida).take 1)

end Criteria

namespace ClaudeClient

/-! Embedding of `src/src/ai/claude_client.py`. -/

/-- The candidate dictionary fields `_analise_fallback` and the prompt
read.  `orders` is an integer in the scraped data (it is interpolated
into a human-readable string), the money/rating fields are floats. -/
structure Produto where
  orders : Option ℤ
  rating : Option ℚ
  price : Option ℚ
  title : Option String
  category : Option String
deriving DecidableEq

/-- The `AnaliseIA` dataclass. -/
structure AnaliseIA where
  aprovado : Bool
  score : ℚ
  motivo : String
  titulo_otimizado : String
  descricao_seo : String
  tags_sugeridas : List String
  preco_sugerido : ℚ
  pontos_venda : List String
  riscos : List String
deriving DecidableEq

/-- `_analise_fallback`: the deterministic metric-based scorer used
whenever the oracle is unavailable or its reply unusable. -/
def analise_fallback (produto : Produto) : AnaliseIA :=
  let orders := produto.orders.getD 0
  let rating := produto.rating.getD 0
  let price := produto.price.getD 0
  let score : ℚ :=
    (if 1000 ≤ orders then 30 else if 500 ≤ orders then 20 else 0) +
    (if 4.7 ≤ rating then 30 else if 4.5 ≤ rating then 20 else 0) +
    (if 5 ≤ price ∧ price ≤ 25 then 20 else if price ≤ 30 then 10 else 0)
  let aprovado := 60 ≤ score
  let preco_brl := round2 (price * 2.5 * 5.5)
  { aprovado := aprovado
    score := score
    motivo := "Análise automática baseada em métricas"
    titulo_otimizado := (produto.title.getD "").take 70
    descricao_seo := "<p>" ++ produto.title.getD "" ++ "</p>"
    tags_sugeridas := [produto.category.getD "acessorios"]
    preco_sugerido := preco_brl
    pontos_venda := ["Produto popular", toString orders ++ " pedidos"]
    riscos := ["Análise sem IA - revisar manualmente"] }

/-- Outcome of the one oracle interaction attempted by
`analisar_produto`: the client may be unconfigured (`self.client is
None`), the API call may raise, the reply may fail to parse into the
expected fields, or parsing may yield a structured analysis. -/
inductive OracleOutcome where
  | clientUnavailable
  | requestFailed
  | parseFailed
  | parsed (a : AnaliseIA)
deriving DecidableEq

/-- `analisar_produto`: returns the parsed oracle analysis when one is
obtained and the deterministic fallback on every failure path; it never
raises. -/
def analisar_produto (outcome : OracleOutcome) (produto : Produto) : AnaliseIA :=
  match outcome with
  | .parsed a => a
  | _ => analise_fallback produto

/-- The fallback score formula exactly as the claim words it:
`30×[orders ≥ 1000] + 20×[500 ≤ orders < 1000] + 25×[rating ≥ 4.5] +
20×[5 ≤ price ≤ 25]`. -/
def claimFallbackScore (produto : Produto) : ℚ :=
  let orders := produto.orders.getD 0
  let rating := produto.rating.getD 0
  let price := produto.price.getD 0
  (if 1000 ≤ orders then 30 else 0) +
  (if 500 ≤ orders ∧ orders < 1000 then 20 else 0) +
  (if 4.5 ≤ rating then 25 else 0) +
  (if 5 ≤ price ∧ price ≤ 25 then 20 else 0)

end ClaudeClient

namespace ProcessarV3

/-! Embedding of the ledger logic of
`src/scripts/processar_v3.py` (`ShopifyProcessorV4`). -/

/-- One Shopify variant as `processar_produto` touches it: only the call
results matter for the ledger, so a variant is identified by its id. -/
structure Variant where
  id : String
deriving DecidableEq

/-- A product as fetched from the store. -/
structure Produto where
  id : String
  variants : List Variant
deriving DecidableEq

/-- The outcomes of the remote update calls: `update_product` returns
whether the product-level PUT answered 200 and `update_variant` likewise
per variant.  (Payload construction — title translation, description,
tags, prices — does not influence the ledger and is abstracted away.) -/
structure Api where
  updateProductOk : String → Bool
  updateVariantOk : String → Bool

/-- The processor state: the persisted `processados` ledger
(`_carregar_progresso` / `_salvar_progresso`). -/
structure State where
  processados : List String
deriving DecidableEq

/-- `_salvar_progresso`: adds the id to the set and immediately rewrites
the progress file; the returned state is the persisted one. -/
def salvar_progresso (st : State) (product_id : String) : State :=
  { processados := product_id :: st.processados }

/-- `processar_produto`: skips ids already in the ledger; otherwise
issues the product-level update and, when that one succeeds, the
per-variant updates (whose results the source discards) followed by
`_salvar_progresso`.  Returns the success flag and the new state. -/
def processar_produto (api : Api) (st : State) (produto : Produto) :
    Bool × State :=
  let pid := produto.id
  if pid ∈ st.processados then (true, st)
  else if api.updateProductOk pid then
    -- the source iterates `self.update_variant(v["id"], ...)` over all
    -- variants, ignoring each call's Boolean result
    let _variantResults := produto.variants.map (fun v => api.updateVariantOk v.id)
    (true, salvar_progresso st pid)
  else (false, st)

end ProcessarV3

/-- One HTTP response to a `GET products.json` page request, as the
correction scripts inspect it: status 200 with a parsed product batch
and an optional `rel="next"` link, status 429, or any other status. -/
inductive Resp where
  | ok (prods : List ℕ) (next : Option String)
  | rateLimited
  | err (code : ℕ)
deriving DecidableEq

namespace CorrigirPrecos

/-! Embedding of `get_all_products` of `src/scripts/corrigir_precos.py`. -/

/-- State of the `while url:` loop: the pending URL (`none` once the
loop is about to exit), the accumulated products, and the total time
spent in `time.sleep`. -/
structure LoopState where
  url : Option String
  produtos : List ℕ
  espera : ℕ
deriving DecidableEq

/-- One iteration of the `while url:` loop on one response: 200 extends
the batch and follows the next link, 429 sleeps 30 seconds and leaves
the URL untouched (the same request is retried, with no attempt
counter), any other status breaks. -/
def step (s : LoopState) (r : Resp) : LoopState :=
  match s.url with
  | none => s
  | some _ =>
    match r with
    | .ok prods next => { url := next, produtos := s.produtos ++ prods, espera := s.espera }
    | .rateLimited => { s with espera := s.espera + 30 }
    | .err _ => { s with url := none }

/-- The loop state after `n` iterations against the response stream
`resp` (iteration `i` receives `resp i`). -/
def iter (resp : ℕ → Resp) (s : LoopState) : ℕ → LoopState
  | 0 => s
  | n + 1 => step (iter resp s n) (resp n)

end CorrigirPrecos

namespace CorrigirTags

/-! Embedding of `get_all_products` of `src/scripts/corrigir_tags.py`. -/

/-- Outcome of fetching one page under the bounded retry loop
(`for attempt in range(max_retries)` with a `for ... else` clause):
either a page is obtained, the retry budget is exhausted (the source
prints the excess and stops), or a non-429 error status stops the
fetch.  Each constructor carries the seconds slept. -/
inductive FetchOutcome where
  | page (prods : List ℕ) (next : Option String) (espera : ℕ)
  | exceeded (espera : ℕ)
  | failed (code : ℕ) (espera : ℕ)
deriving DecidableEq

/-- The attempt loop for one page: `fuel` is the remaining retry budget,
`attempt` the index of the next attempt, `espera` the seconds slept so
far; a 429 sleeps 30 seconds and retries the same URL. -/
def tryFetch (resp : ℕ → Resp) : ℕ → ℕ → ℕ → FetchOutcome
  | 0, _, espera => .exceeded espera
  | fuel + 1, attempt, espera =>
    match resp attempt with
    | .ok prods next => .page prods next espera
    | .rateLimited => tryFetch resp fuel (attempt + 1) (espera + 30)
    | .err c => .failed c espera

/-- `max_retries = 3` in the source. -/
def max_retries : ℕ := 3

/-- Fetch one page with the source's retry budget. -/
def fetchPage (resp : ℕ → Resp) : FetchOutcome := tryFetch resp max_retries 0 0

end CorrigirTags

/-! ## Helper lemmas -/

theorem floor_le_roundHalfEven (q : ℚ) : ⌊q⌋ ≤ roundHalfEven q := by
  unfold roundHalfEven
  split_ifs <;> omega

theorem roundHalfEven_le_floor_add_one (q : ℚ) : roundHalfEven q ≤ ⌊q⌋ + 1 := by
  unfold roundHalfEven
  split_ifs <;> omega

namespace AdvancedPriceCalculator

/-- The psychological rounding function never returns less than 29.90,
in any tier. -/
theorem le_arredondar_psicologico (v : ℚ) : (29.90 : ℚ) ≤ arredondar_psicologico v := by
  unfold arredondar_psicologico
  split_ifs with h1 h2 h3
  · exact le_max_left _ _
  · have hq : (5 : ℚ) ≤ v / 10 := by linarith
    have hf : (5 : ℤ) ≤ ⌊v / 10⌋ := Int.le_floor.mpr (by exact_mod_cast hq)
    have hr : (5 : ℤ) ≤ roundHalfEven (v / 10) :=
      le_trans hf (floor_le_roundHalfEven _)
    have hr' : (5 : ℚ) ≤ (roundHalfEven (v / 10) : ℚ) := by exact_mod_cast hr
    linarith
  · have hq : (10 : ℚ) ≤ v / 20 := by linarith
    have hf : (10 : ℤ) ≤ ⌊v / 20⌋ := Int.le_floor.mpr (by exact_mod_cast hq)
    have hr : (10 : ℤ) ≤ roundHalfEven (v / 20) :=
      le_trans hf (floor_le_roundHalfEven _)
    have hr' : (10 : ℚ) ≤ (roundHalfEven (v / 20) : ℚ) := by exact_mod_cast hr
    linarith
  · have hq : (10 : ℚ) ≤ v / 50 := by linarith
    have hf : (10 : ℤ) ≤ ⌊v / 50⌋ := Int.le_floor.mpr (by exact_mod_cast hq)
    have hr : (10 : ℤ) ≤ roundHalfEven (v / 50) :=
      le_trans hf (floor_le_roundHalfEven _)
    have hr' : (10 : ℚ) ≤ (roundHalfEven (v / 50) : ℚ) := by exact_mod_cast hr
    linarith

end AdvancedPriceCalculator

namespace AdvancedPriceCalculator

/-! ## Claim theorems: Price Engine -/

/-- C1: for every unit_cost ≥ 0 and freight ≥ 0 the breakdown computed by
`calcular_preco_final` records (to the cent) an import duty equal to
`import_duty_rate × (unit_cost + freight)`, a consumption tax equal to
the gross-up `tax_rate × (unit_cost + freight + duty) / (1 − tax_rate)`,
and a total landed cost equal to `unit_cost + freight + duty + tax`. -/
theorem c1_duty_tax_landed_cost (c f : ℚ) (nicho : String)
    (hc : 0 ≤ c) (hf : 0 ≤ f) :
    (calcular_preco_final DEFAULT_CONFIG c (some f) nicho).imposto_importacao
        = round2 (0.15 * (c + f)) ∧
    (calcular_preco_final DEFAULT_CONFIG c (some f) nicho).icms
        = round2 (0.18 * (c + f + 0.15 * (c + f)) / (1 - 0.18)) ∧
    (calcular_preco_final DEFAULT_CONFIG c (some f) nicho).custo_total
        = round2 (c + f + 0.15 * (c + f)
            + 0.18 * (c + f + 0.15 * (c + f)) / (1 - 0.18)) := by
  refine ⟨?_, ?_, ?_⟩ <;>
  · simp only [calcular_preco_final, DEFAULT_CONFIG, Option.getD_some]
    congr 1
    ring

/-- Witness for C1 at unit_cost = 10, freight = 5, nicho = brincos. -/
theorem c1_duty_tax_landed_cost_witness :
    (calcular_preco_final DEFAULT_CONFIG 10 (some 5) "brincos").imposto_importacao
        = round2 (0.15 * (10 + 5)) ∧
    (calcular_preco_final DEFAULT_CONFIG 10 (some 5) "brincos").icms
        = round2 (0.18 * (10 + 5 + 0.15 * (10 + 5)) / (1 - 0.18)) ∧
    (calcular_preco_final DEFAULT_CONFIG 10 (some 5) "brincos").custo_total
        = round2 (10 + 5 + 0.15 * (10 + 5)
            + 0.18 * (10 + 5 + 0.15 * (10 + 5)) / (1 - 0.18)) :=
  c1_duty_tax_landed_cost 10 5 "brincos" (by norm_num) (by norm_num)

/-- C2: Scenario A — unit_cost 10.00, freight 5.00, category brincos,
default configuration: the suggested sale price is exactly 49.90. -/
theorem c2_scenario_a :
    (calcular_preco_final DEFAULT_CONFIG 10 (some 5) "brincos").preco_sugerido
      = 49.90 := by
  have hm : markupOf DEFAULT_CONFIG "brincos" = 2.5 := rfl
  have hi : DEFAULT_CONFIG.globalCfg.imposto_importacao = 0.15 := rfl
  have hic : DEFAULT_CONFIG.globalCfg.icms = 0.18 := rfl
  simp only [calcular_preco_final, hm, hi, hic, Option.getD_some]
  norm_num [arredondar_psicologico, roundHalfEven]

/-- C3: with the default configuration the final suggested price is at
least 29.90 for every unit_cost ≥ 0, freight ≥ 0 and category. -/
theorem c3_price_floor (c f : ℚ) (nicho : String) (hc : 0 ≤ c) (hf : 0 ≤ f) :
    (29.90 : ℚ) ≤ (calcular_preco_final DEFAULT_CONFIG c (some f) nicho).preco_sugerido := by
  simp only [calcular_preco_final]
  exact le_arredondar_psicologico _

/-- Witness for C3 at unit_cost = 10, freight = 5, nicho = colares. -/
theorem c3_price_floor_witness :
    (29.90 : ℚ) ≤ (calcular_preco_final DEFAULT_CONFIG 10 (some 5) "colares").preco_sugerido :=
  c3_price_floor 10 5 "colares" (by norm_num) (by norm_num)

/-- C6 counterexample: on the negative unit_cost −10 (freight 5) the
engine does not fail — it returns an ordinary breakdown whose suggested
price is the floor 29.90, so no `InvalidInputError` is raised (none
exists in the code). -/
theorem c6_counterexample_negative_cost_returns_breakdown :
    (calcular_preco_final DEFAULT_CONFIG (-10) (some 5) "acessorios").preco_sugerido
      = 29.90 := by
  have hm : markupOf DEFAULT_CONFIG "acessorios" = 2.5 := rfl
  have hi : DEFAULT_CONFIG.globalCfg.imposto_importacao = 0.15 := rfl
  have hic : DEFAULT_CONFIG.globalCfg.icms = 0.18 := rfl
  simp only [calcular_preco_final, hm, hi, hic, Option.getD_some]
  norm_num [arredondar_psicologico, roundHalfEven]

/-- C6 (amended): negative inputs are not validated; for every negative
unit_cost or freight, `calcular_preco_final` still returns a breakdown,
computed by the same formulas and subject to the same 29.90 floor. -/
theorem c6_amended_no_input_validation (c f : ℚ) (nicho : String)
    (h : c < 0 ∨ f < 0) :
    (29.90 : ℚ) ≤ (calcular_preco_final DEFAULT_CONFIG c (some f) nicho).preco_sugerido ∧
    (calcular_preco_final DEFAULT_CONFIG c (some f) nicho).imposto_importacao
        = round2 (0.15 * (c + f)) := by
  constructor
  · simp only [calcular_preco_final]
    exact le_arredondar_psicologico _
  · simp only [calcular_preco_final, DEFAULT_CONFIG, Option.getD_some]
    congr 1
    ring

/-- Witness for the amended C6 at unit_cost = −10, freight = 5. -/
theorem c6_amended_no_input_validation_witness :
    (29.90 : ℚ) ≤ (calcular_preco_final DEFAULT_CONFIG (-10) (some 5) "bolsas").preco_sugerido ∧
    (calcular_preco_final DEFAULT_CONFIG (-10) (some 5) "bolsas").imposto_importacao
        = round2 (0.15 * (-10 + 5)) :=
  c6_amended_no_input_validation (-10) 5 "bolsas" (Or.inl (by norm_num))

/-- C10: every price emitted by the psychological rounding function, and
the compare-at price derived from it, ends in 9.90: price + 0.10 is a
positive integer multiple of 10. -/
theorem c10_prices_end_in_990 (v : ℚ) :
    (∃ k : ℤ, 0 < k ∧ arredondar_psicologico v + 0.10 = 10 * k) ∧
    (∃ m : ℤ, 0 < m ∧ calcular_preco_de (arredondar_psicologico v) + 0.10 = 10 * m) := by
  constructor
  · unfold arredondar_psicologico
    split_ifs with h1 h2 h3
    · rcases le_or_lt ((roundHalfEven (v / 10) : ℚ) * 10 - 0.10) 29.90 with h | h
      · rw [max_eq_left h]
        exact ⟨3, by norm_num, by norm_num⟩
      · rw [max_eq_right h.le]
        refine ⟨roundHalfEven (v / 10), ?_, by push_cast; ring⟩
        have : (3 : ℚ) < (roundHalfEven (v / 10) : ℚ) := by linarith
        exact_mod_cast lt_trans (by norm_num : (0:ℚ) < 3) this
    · refine ⟨roundHalfEven (v / 10), ?_, by push_cast; ring⟩
      have hq : (5 : ℚ) ≤ v / 10 := by linarith
      have hf : (5 : ℤ) ≤ ⌊v / 10⌋ := Int.le_floor.mpr (by exact_mod_cast hq)
      have := floor_le_roundHalfEven (v / 10)
      omega
    · refine ⟨2 * roundHalfEven (v / 20), ?_, by push_cast; ring⟩
      have hq : (10 : ℚ) ≤ v / 20 := by linarith
      have hf : (10 : ℤ) ≤ ⌊v / 20⌋ := Int.le_floor.mpr (by exact_mod_cast hq)
      have := floor_le_roundHalfEven (v / 20)
      omega
    · refine ⟨5 * roundHalfEven (v / 50), ?_, by push_cast; ring⟩
      have hq : (10 : ℚ) ≤ v / 50 := by linarith
      have hf : (10 : ℤ) ≤ ⌊v / 50⌋ := Int.le_floor.mpr (by exact_mod_cast hq)
      have := floor_le_roundHalfEven (v / 50)
      omega
  · have h299 := le_arredondar_psicologico v
    unfold calcular_preco_de
    refine ⟨roundHalfEven (arredondar_psicologico v * 1.30 / 10), ?_, by push_cast; ring⟩
    have hq : (3 : ℚ) ≤ arredondar_psicologico v * 1.30 / 10 := by linarith
    have hf : (3 : ℤ) ≤ ⌊arredondar_psicologico v * 1.30 / 10⌋ :=
      Int.le_floor.mpr (by exact_mod_cast hq)
    have := floor_le_roundHalfEven (arredondar_psicologico v * 1.30 / 10)
    omega

end AdvancedPriceCalculator

namespace Criteria

/-! ## Claim theorems: Acceptance Filter -/

/-- The `break` in the keyword loop keeps exactly the first matching
forbidden keyword: `keywordMotivo` equals the one-element truncation of
the list of all matching keywords. -/
theorem keywordMotivo_eq_take_one (titulo : String) (kws : List String) :
    keywordMotivo titulo kws
      = ((kws.filter (fun kw => containsSub titulo kw)).map Motivo.keywordProibida).take 1 := by
  induction kws with
  | nil => rfl
  | cons a t ih =>
    unfold keywordMotivo at ih ⊢
    cases h : containsSub titulo a
    · simp [List.find?_cons, List.filter_cons, h, ih]
    · simp [List.find?_cons, List.filter_cons, h]

/-- C4 counterexample: on a title containing the forbidden keywords
"replica" and "fake", `validar_produto` returns only the reason for
"replica" — the claim's all-keywords reason list (which contains a
reason for "fake" as well) is not produced. -/
theorem c4_counterexample_second_keyword_dropped :
    (validar_produto
        ⟨some 1000, some 5, some 200, some 10, some 10, some "replica fake colar"⟩
        defaultCriterios).2
      = [Motivo.keywordProibida "replica"] ∧
    Motivo.keywordProibida "fake" ∈
      motivosClaim
        ⟨some 1000, some 5, some 200, some 10, some 10, some "replica fake colar"⟩
        defaultCriterios ∧
    Motivo.keywordProibida "fake" ∉
      (validar_produto
          ⟨some 1000, some 5, some 200, some 10, some 10, some "replica fake colar"⟩
          defaultCriterios).2 := by
  have ht : lowerStr "replica fake colar" = "replica fake colar" := by decide
  have hk : keywordMotivo "replica fake colar" defaultCriterios.keywords_evitar
      = [Motivo.keywordProibida "replica"] := by decide
  have hfil : (defaultCriterios.keywords_evitar.filter
        (fun kw => containsSub "replica fake colar" kw)).map Motivo.keywordProibida
      = [Motivo.keywordProibida "replica", Motivo.keywordProibida "fake"] := by decide
  have h2 : (validar_produto
      ⟨some 1000, some 5, some 200, some 10, some 10, some "replica fake colar"⟩
      defaultCriterios).2 = [Motivo.keywordProibida "replica"] := by
    simp only [validar_produto, Option.getD_some, ht, hk]
    norm_num [defaultCriterios]
  refine ⟨h2, ?_, by rw [h2]; decide⟩
  simp only [motivosClaim, motivosBase, Option.getD_some, ht, hfil]
  norm_num [defaultCriterios]

/-- C4 (amended): `validar_produto` returns all applicable numeric
rejection reasons but at most ONE keyword reason — the first forbidden
keyword (in configured order) occurring in the title; the candidate is
accepted iff the reasons list is empty. -/
theorem c4_amended_first_keyword_only (p : Produto) (c : CriteriosMineracao) :
    validar_produto p c
      = ((motivosPrimeiraKeyword p c).isEmpty, motivosPrimeiraKeyword p c) := by
  simp only [validar_produto, motivosPrimeiraKeyword, motivosBase, keywordMotivo_eq_take_one]

/-- C9 counterexample: a candidate passing every criterion but lacking
`shipping_days` is REJECTED with the reason "Envio lento: 99 dias" —
whereas with the claimed default 0 it would be accepted with no
reasons. -/
theorem c9_counterexample_missing_shipping_days :
    validar_produto ⟨some 1000, some 5, some 200, some 10, none, some "colar lindo"⟩
        defaultCriterios
      = (false, [Motivo.envioLento 99]) ∧
    validar_produto ⟨some 1000, some 5, some 200, some 10, some 0, some "colar lindo"⟩
        defaultCriterios
      = (true, []) := by
  have ht : lowerStr "colar lindo" = "colar lindo" := by decide
  have hk : keywordMotivo "colar lindo" defaultCriterios.keywords_evitar = [] := by decide
  constructor
  · simp only [validar_produto, Option.getD_some, Option.getD_none, ht, hk]
    norm_num [defaultCriterios]
  · simp only [validar_produto, Option.getD_some, ht, hk]
    norm_num [defaultCriterios]

/-- C9 (amended): missing `orders`, `rating`, `reviews` and `price`
default to 0 (and a missing title to the empty string), but a missing
`shipping_days` defaults to 99 — not 0 — so such a candidate is judged
against `max_dias_envio` with the value 99. -/
theorem c9_amended_defaults (c : CriteriosMineracao) (o r rv pr sd : Option ℚ)
    (t : Option String) :
    validar_produto ⟨none, r, rv, pr, sd, t⟩ c
        = validar_produto ⟨some 0, r, rv, pr, sd, t⟩ c ∧
    validar_produto ⟨o, none, rv, pr, sd, t⟩ c
        = validar_produto ⟨o, some 0, rv, pr, sd, t⟩ c ∧
    validar_produto ⟨o, r, none, pr, sd, t⟩ c
        = validar_produto ⟨o, r, some 0, pr, sd, t⟩ c ∧
    validar_produto ⟨o, r, rv, none, sd, t⟩ c
        = validar_produto ⟨o, r, rv, some 0, sd, t⟩ c ∧
    validar_produto ⟨o, r, rv, pr, none, t⟩ c
        = validar_produto ⟨o, r, rv, pr, some 99, t⟩ c ∧
    validar_produto ⟨o, r, rv, pr, sd, none⟩ c
        = validar_produto ⟨o, r, rv, pr, sd, some ""⟩ c :=
  ⟨rfl, rfl, rfl, rfl, rfl, rfl⟩

end Criteria

namespace ClaudeClient

/-! ## Claim theorems: AI Scoring Adapter -/

/-- C5 counterexample: for a candidate with orders 0, rating 4.7,
price 0, the fallback analysis scores 40 (30 for rating ≥ 4.7, 10 for
price ≤ 30), while the claim's formula gives 25 — the two disagree. -/
theorem c5_counterexample_fallback_weights :
    (analisar_produto .requestFailed ⟨some 0, some 4.7, some 0, none, none⟩).score = 40 ∧
    claimFallbackScore ⟨some 0, some 4.7, some 0, none, none⟩ = 25 ∧
    (analisar_produto .requestFailed ⟨some 0, some 4.7, some 0, none, none⟩).score
      ≠ claimFallbackScore ⟨some 0, some 4.7, some 0, none, none⟩ := by
  refine ⟨?_, ?_, ?_⟩ <;>
    norm_num [analisar_produto, analise_fallback, claimFallbackScore,
      Option.getD_some, Option.getD_none]

/-- C5 (amended): on every oracle failure path (client unavailable,
request raised, reply unparsable) the adapter returns the deterministic
fallback, whose score is `30×[orders ≥ 1000] + 20×[500 ≤ orders < 1000]
+ 30×[rating ≥ 4.7] + 20×[4.5 ≤ rating < 4.7] + 20×[5 ≤ price ≤ 25] +
10×[price ≤ 30 ∧ ¬(5 ≤ price ≤ 25)]`, with approved ⟺ score ≥ 60,
suggested price `round2(price × 2.5 × 5.5)`, and the score always lies
in [0, 100]. -/
theorem c5_amended_fallback_scorer (p : Produto) :
    analisar_produto .clientUnavailable p = analise_fallback p ∧
    analisar_produto .requestFailed p = analise_fallback p ∧
    analisar_produto .parseFailed p = analise_fallback p ∧
    (analise_fallback p).score =
      (if 1000 ≤ p.orders.getD 0 then 30 else 0) +
      (if 500 ≤ p.orders.getD 0 ∧ p.orders.getD 0 < 1000 then 20 else 0) +
      (if 4.7 ≤ p.rating.getD 0 then 30 else 0) +
      (if 4.5 ≤ p.rating.getD 0 ∧ p.rating.getD 0 < 4.7 then 20 else 0) +
      (if 5 ≤ p.price.getD 0 ∧ p.price.getD 0 ≤ 25 then 20 else 0) +
      (if p.price.getD 0 ≤ 30 ∧ ¬(5 ≤ p.price.getD 0 ∧ p.price.getD 0 ≤ 25) then 10
       else 0) ∧
    ((analise_fallback p).aprovado = true ↔ 60 ≤ (analise_fallback p).score) ∧
    (analise_fallback p).preco_sugerido = round2 (p.price.getD 0 * 2.5 * 5.5) ∧
    0 ≤ (analise_fallback p).score ∧ (analise_fallback p).score ≤ 100 := by
  refine ⟨rfl, rfl, rfl, ?_, ?_, rfl, ?_, ?_⟩
  · have ho : (if 1000 ≤ p.orders.getD 0 then (30 : ℚ)
          else if 500 ≤ p.orders.getD 0 then 20 else 0)
        = (if 1000 ≤ p.orders.getD 0 then 30 else 0) +
          (if 500 ≤ p.orders.getD 0 ∧ p.orders.getD 0 < 1000 then 20 else 0) := by
      rcases le_or_lt 1000 (p.orders.getD 0) with h1 | h1
      · have hn : ¬(500 ≤ p.orders.getD 0 ∧ p.orders.getD 0 < 1000) := by omega
        rw [if_pos h1, if_pos h1, if_neg hn]; norm_num
      · have hA : ¬(1000 ≤ p.orders.getD 0) := by omega
        rw [if_neg hA, if_neg hA]
        rcases le_or_lt 500 (p.orders.getD 0) with h2 | h2
        · rw [if_pos h2, if_pos ⟨h2, h1⟩]; norm_num
        · have hB : ¬(500 ≤ p.orders.getD 0) := by omega
          have hn : ¬(500 ≤ p.orders.getD 0 ∧ p.orders.getD 0 < 1000) := by omega
          rw [if_neg hB, if_neg hn]; norm_num
    have hr : (if 4.7 ≤ p.rating.getD 0 then (30 : ℚ)
          else if 4.5 ≤ p.rating.getD 0 then 20 else 0)
        = (if 4.7 ≤ p.rating.getD 0 then 30 else 0) +
          (if 4.5 ≤ p.rating.getD 0 ∧ p.rating.getD 0 < 4.7 then 20 else 0) := by
      rcases le_or_lt 4.7 (p.rating.getD 0) with h1 | h1
      · rw [if_pos h1, if_pos h1, if_neg (fun hx => absurd h1 (not_le.mpr hx.2))]
        norm_num
      · have hA : ¬((4.7 : ℚ) ≤ p.rating.getD 0) := not_le.mpr h1
        rw [if_neg hA, if_neg hA]
        rcases le_or_lt 4.5 (p.rating.getD 0) with h2 | h2
        · rw [if_pos h2, if_pos ⟨h2, h1⟩]; norm_num
        · have hB : ¬((4.5 : ℚ) ≤ p.rating.getD 0) := not_le.mpr h2
          have hn : ¬((4.5 : ℚ) ≤ p.rating.getD 0 ∧ p.rating.getD 0 < 4.7) :=
            fun hx => absurd hx.1 hB
          rw [if_neg hB, if_neg hn]; norm_num
    have hp : (if 5 ≤ p.price.getD 0 ∧ p.price.getD 0 ≤ 25 then (20 : ℚ)
          else if p.price.getD 0 ≤ 30 then 10 else 0)
        = (if 5 ≤ p.price.getD 0 ∧ p.price.getD 0 ≤ 25 then 20 else 0) +
          (if p.price.getD 0 ≤ 30 ∧ ¬(5 ≤ p.price.getD 0 ∧ p.price.getD 0 ≤ 25)
           then 10 else 0) := by
      by_cases hC : 5 ≤ p.price.getD 0 ∧ p.price.getD 0 ≤ 25
      · rw [if_pos hC, if_pos hC, if_neg (fun hx => hx.2 hC)]; norm_num
      · rw [if_neg hC, if_neg hC]
        by_cases hD : p.price.getD 0 ≤ 30
        · rw [if_pos hD, if_pos ⟨hD, hC⟩]; norm_num
        · rw [if_neg hD, if_neg (fun hx => hD hx.1)]; norm_num
    simp only [analise_fallback]
    rw [ho, hr, hp]
    ring
  · simp only [analise_fallback, decide_eq_true_eq]
  · simp only [analise_fallback]
    split_ifs <;> norm_num
  · simp only [analise_fallback]
    split_ifs <;> norm_num

end ClaudeClient

namespace ProcessarV3

/-! ## Claim theorems: Catalog Reconciler ledger -/

/-- C7 counterexample: the product-level update succeeds but the (only)
variant update fails; the product id is nevertheless appended to the
ledger, contradicting "appended iff ALL update calls succeeded". -/
theorem c7_counterexample_variant_failure_still_in_ledger :
    (processar_produto ⟨fun _ => true, fun _ => false⟩ ⟨[]⟩
        ⟨"123", [⟨"v1"⟩]⟩).2.processados = ["123"] ∧
    Api.updateVariantOk ⟨fun _ => true, fun _ => false⟩ "v1" = false := by
  constructor <;> rfl

/-- C7 (amended): for a product not yet in the ledger, the id is
appended (and persisted) iff the PRODUCT-LEVEL update call succeeded;
the per-variant update results are discarded and have no influence. -/
theorem c7_amended_ledger_tracks_product_update (api : Api) (st : State)
    (p : Produto) (h : p.id ∉ st.processados) :
    ((processar_produto api st p).2.processados
        = if api.updateProductOk p.id then p.id :: st.processados
          else st.processados) ∧
    (p.id ∈ (processar_produto api st p).2.processados
        ↔ api.updateProductOk p.id = true) := by
  cases hu : api.updateProductOk p.id <;>
    simp [processar_produto, salvar_progresso, h, hu]

/-- Witness for the amended C7 at a concrete product and API. -/
theorem c7_amended_ledger_tracks_product_update_witness :
    ("123" ∉ (State.mk []).processados) ∧
    (((processar_produto ⟨fun _ => true, fun _ => true⟩ ⟨[]⟩
          ⟨"123", [⟨"v1"⟩]⟩).2.processados
        = if Api.updateProductOk ⟨fun _ => true, fun _ => true⟩ "123"
          then "123" :: (State.mk []).processados
          else (State.mk []).processados) ∧
      ("123" ∈ (processar_produto ⟨fun _ => true, fun _ => true⟩ ⟨[]⟩
          ⟨"123", [⟨"v1"⟩]⟩).2.processados
        ↔ Api.updateProductOk ⟨fun _ => true, fun _ => true⟩ "123" = true)) :=
  ⟨by simp, c7_amended_ledger_tracks_product_update _ _ _ (by simp)⟩

end ProcessarV3

/-! ## Claim theorems: rate-limit retry loops -/

/-- C8 counterexample: in `corrigir_precos.get_all_products`, after ten
consecutive HTTP 429 responses — far beyond the documented bound of
three attempts — the loop is still retrying the very same URL, having
slept 300 seconds; no failure is surfaced. -/
theorem c8_counterexample_unbounded_429_retry :
    CorrigirPrecos.iter (fun _ => Resp.rateLimited)
        ⟨some "products.json?limit=250", [], 0⟩ 10
      = ⟨some "products.json?limit=250", [], 300⟩ := rfl

/-- C8 (amended): on HTTP 429 both fetch loops back off 30 time units
and retry the same call, but only `corrigir_tags` bounds the attempts
(`max_retries = 3`, then the failure is surfaced); `corrigir_precos`
retries without bound — after `n` consecutive 429 responses its loop
still holds the same URL, having slept `30·n`. -/
theorem c8_amended_bounded_only_in_corrigir_tags :
    (∀ (n : ℕ) (u : String) (ps : List ℕ) (e : ℕ),
        CorrigirPrecos.iter (fun _ => Resp.rateLimited) ⟨some u, ps, e⟩ n
          = ⟨some u, ps, e + 30 * n⟩) ∧
    CorrigirTags.fetchPage (fun _ => Resp.rateLimited)
      = CorrigirTags.FetchOutcome.exceeded 90 := by
  constructor
  · intro n u ps e
    induction n with
    | zero => simp [CorrigirPrecos.iter]
    | succ k ih =>
        simp only [CorrigirPrecos.iter, ih, CorrigirPrecos.step]
        refine congrArg (fun x => CorrigirPrecos.LoopState.mk (some u) ps x) ?_
        omega
  · rfl
